import Mathlib

/-!
Shallow embedding of `src/front-net-ctrl.py` (Network Control Tool for MPTCP).

The program is a sequential dispatcher over external subprocess invocations.
We model the external world as an oracle `World : Nat → Outcome` giving the
result of the k-th subprocess invocation attempt (in program order).  An
attempt either returns a completed process (captured stdout, stderr, return
code), raises `subprocess.SubprocessError` (the only class the source
catches), or raises an `OSError` such as `FileNotFoundError` or
`PermissionError` — which real launch failures produce and which NO handler
in the source catches, so it propagates, aborts the remaining commands, and
makes the interpreter print a traceback and exit 1.

Each embedded function therefore returns a `PyResult` (normal boolean value,
or an uncaught exception propagating), together with the list of observable
events (command attempts, lines printed to stdout/stderr) that happened
before the function returned or the exception escaped, and the next
invocation index.
-/

namespace FrontNetCtrl

/-- Result of one attempted subprocess invocation: `subprocess.run` returned
(with captured stdout, stderr and return code), raised
`subprocess.SubprocessError` with message `msg` (caught by the source's
handlers), or raised an `OSError` (e.g. `FileNotFoundError`,
`PermissionError`) with message `msg`, which the source never catches. -/
inductive Outcome where
  | ok (stdout stderr : String) (returncode : Int)
  | subprocErr (msg : String)
  | osErr (msg : String)
deriving DecidableEq, Repr

/-- Result of running a piece of the program: a normal boolean return value,
or an uncaught exception (the `OSError` message) propagating out of it. -/
inductive PyResult where
  | normal (b : Bool)
  | raised (msg : String)
deriving DecidableEq, Repr

/-- A run counts as successful only when it returned `True` normally; a
normal `False` return and an uncaught exception are both non-success. -/
def succeeded : PyResult → Bool
  | .normal b => b
  | .raised _ => false

/-- Observable events: a subprocess invocation attempt (with its outcome),
a line printed to stdout, a line printed to stderr. -/
inductive Event where
  | exec (cmd : List String) (o : Outcome)
  | printOut (s : String)
  | printErr (s : String)
deriving DecidableEq, Repr

/-- The external world: outcome of the k-th subprocess invocation attempt. -/
def World : Type := Nat → Outcome

/-- Commands whose invocation was attempted, extracted from a trace. -/
def execCmds (evs : List Event) : List (List String) :=
  evs.filterMap fun ev =>
    match ev with
    | .exec cmd _ => some cmd
    | _ => none

/-- Lines printed to stderr by the program itself, extracted from a trace. -/
def errLines (evs : List Event) : List String :=
  evs.filterMap fun ev =>
    match ev with
    | .printErr s => some s
    | _ => none

/-- Failure criterion `invFailed o` of the program for one invocation:
non-empty captured stderr (`if result.stderr:`), or any failure to launch.
The return code and the captured stdout play no role. -/
def invFailed : Outcome → Bool
  | .ok _ stderr _ => stderr != ""
  | .subprocErr _ => true
  | .osErr _ => true

/-- Whether the outcome is an exception the source does not catch
(`OSError`), which therefore propagates out of the handler. -/
def propagates : Outcome → Bool
  | .osErr _ => true
  | _ => false

/-- The part of an invocation outcome the program's decisions can depend
on: the captured stderr text when the process ran, or which kind of launch
failure was raised (caught `SubprocessError` vs. uncaught `OSError`). -/
inductive ErrView where
  | returned (stderr : String)
  | failedCaught
  | failedUncaught
deriving DecidableEq, Repr

/-- Projection of an outcome to its error view: stdout and return code are
discarded, as are the exception message texts. -/
def errView : Outcome → ErrView
  | .ok _ stderr _ => .returned stderr
  | .subprocErr _ => .failedCaught
  | .osErr _ => .failedUncaught

/-- The `change_cmd` list of `configure_interface` (lines 46-47 of the
source). -/
def change_cmd (iface bandwidth : String) : List String :=
  ["tc", "qdisc", "change", "dev", iface, "root", "tbf",
   "rate", bandwidth ++ "mbit", "burst", "256mbit", "latency", "600ms"]

/-- The `add_cmd` list of `configure_interface` (lines 58-59 of the
source). -/
def add_cmd (iface bandwidth : String) : List String :=
  ["tc", "qdisc", "add", "dev", iface, "root", "tbf",
   "rate", bandwidth ++ "mbit", "burst", "256mbit", "latency", "600ms"]

/-- The add-fallback step of `configure_interface` (lines 61-70): run the
add command; success iff empty stderr; a raised `SubprocessError` is caught,
reported and is terminal failure; a raised `OSError` is uncaught and
propagates. -/
def add_step (w : World) (k : Nat) (iface bandwidth : String) :
    PyResult × List Event :=
  match w k with
  | .ok _ stderr _ =>
      if stderr = "" then
        (.normal true,
         [.exec (add_cmd iface bandwidth) (w k),
          .printOut ("Successfully added bandwidth limit for " ++ iface)])
      else
        (.normal false,
         [.exec (add_cmd iface bandwidth) (w k),
          .printErr ("Error configuring " ++ iface ++ ": " ++ stderr)])
  | .subprocErr e =>
      (.normal false,
       [.exec (add_cmd iface bandwidth) (w k),
        .printErr ("Error executing command for " ++ iface ++ ": " ++ e)])
  | .osErr e =>
      (.raised e, [.exec (add_cmd iface bandwidth) (w k)])

/-- Embedding of `configure_interface` (lines 44-70): try `tc qdisc change`;
if it produced no stderr, succeed immediately; on non-empty stderr, or on a
`SubprocessError` silently passed over, fall back to `add_step`; on an
`OSError` the exception is uncaught and no fallback runs. -/
def configure_interface (w : World) (k : Nat) (iface bandwidth : String) :
    PyResult × List Event × Nat :=
  match w k with
  | .ok _ stderr _ =>
      if stderr = "" then
        (.normal true,
         [.exec (change_cmd iface bandwidth) (w k),
          .printOut ("Successfully modified bandwidth for " ++ iface)],
         k + 1)
      else
        let r := add_step w (k + 1) iface bandwidth
        (r.1, .exec (change_cmd iface bandwidth) (w k) :: r.2, k + 2)
  | .subprocErr _ =>
      let r := add_step w (k + 1) iface bandwidth
      (r.1, .exec (change_cmd iface bandwidth) (w k) :: r.2, k + 2)
  | .osErr e =>
      (.raised e, [.exec (change_cmd iface bandwidth) (w k)], k + 1)

/-- Embedding of `handle_bandwidth_mode` (lines 72-78): configure iface1
then iface2; overall success is the conjunction; an uncaught exception
from the first call propagates before the second call is made. -/
def handle_bandwidth_mode (w : World) (k : Nat)
    (iface1 bw1 iface2 bw2 : String) : PyResult × List Event × Nat :=
  let r1 := configure_interface w k iface1 bw1
  match r1.1 with
  | .raised e => (.raised e, r1.2.1, r1.2.2)
  | .normal s1 =>
    let r2 := configure_interface w r1.2.2 iface2 bw2
    match r2.1 with
    | .raised e => (.raised e, r1.2.1 ++ r2.2.1, r2.2.2)
    | .normal s2 => (.normal (s1 && s2), r1.2.1 ++ r2.2.1, r2.2.2)

/-- Body of the command loops in `handle_mptcp_client_mode` (lines 88-98)
and `handle_mptcp_server_mode` (lines 113-123), which are textually
identical in the source: run the command; non-empty stderr is reported and
counts as failure; a raised `SubprocessError` is caught, reported and
counts as failure; a raised `OSError` is uncaught and propagates. -/
def step (w : World) (k : Nat) (cmd : List String) : PyResult × List Event :=
  match w k with
  | .ok _ stderr _ =>
      if stderr != "" then
        (.normal false,
         [.exec cmd (w k),
          .printErr ("Error executing " ++ String.intercalate " " cmd
                     ++ ": " ++ stderr)])
      else
        (.normal true,
         [.exec cmd (w k),
          .printOut ("Successfully executed: "
                     ++ String.intercalate " " cmd)])
  | .subprocErr e =>
      (.normal false,
       [.exec cmd (w k),
        .printErr ("Command failed " ++ String.intercalate " " cmd
                   ++ ": " ++ e)])
  | .osErr e =>
      (.raised e, [.exec cmd (w k)])

/-- First command of `handle_mptcp_client_mode` (line 83). -/
def client_cmd1 : List String := ["ip", "mptcp", "limits", "set", "subflow", "2"]

/-- Second command of `handle_mptcp_client_mode` (line 84). -/
def client_cmd2 : List String :=
  ["ip", "mptcp", "limits", "set", "add_addr_accepted", "2"]

/-- Embedding of `handle_mptcp_client_mode` (lines 80-100): loop over the
two limit commands; an uncaught `OSError` from the first iteration aborts
the loop before the second command is issued. -/
def handle_mptcp_client_mode (w : World) (k : Nat) :
    PyResult × List Event × Nat :=
  let s1 := step w k client_cmd1
  match s1.1 with
  | .raised e =>
      (.raised e, .printOut "Configuring MPTCP client mode..." :: s1.2, k + 1)
  | .normal b1 =>
    let s2 := step w (k + 1) client_cmd2
    match s2.1 with
    | .raised e =>
        (.raised e,
         .printOut "Configuring MPTCP client mode..." :: (s1.2 ++ s2.2), k + 2)
    | .normal b2 =>
        (.normal (b1 && b2),
         .printOut "Configuring MPTCP client mode..." :: (s1.2 ++ s2.2), k + 2)

/-- The `subflow_cmd` list of `handle_mptcp_server_mode` (line 106). -/
def subflow_cmd : List String := ["ip", "mptcp", "limits", "set", "subflow", "2"]

/-- The `endpoint_cmd` list of `handle_mptcp_server_mode` (lines 109-110). -/
def endpoint_cmd (subflow_ip subflow_iface : String) : List String :=
  ["ip", "mptcp", "endpoint", "add", subflow_ip, "dev", subflow_iface, "signal"]

/-- Embedding of `handle_mptcp_server_mode` (lines 102-125): loop over the
subflow-limit command then the endpoint-add command; an uncaught `OSError`
from the first iteration aborts the loop before the endpoint is added. -/
def handle_mptcp_server_mode (w : World) (k : Nat)
    (subflow_ip subflow_iface : String) : PyResult × List Event × Nat :=
  let s1 := step w k subflow_cmd
  match s1.1 with
  | .raised e =>
      (.raised e, .printOut "Configuring MPTCP server mode..." :: s1.2, k + 1)
  | .normal b1 =>
    let s2 := step w (k + 1) (endpoint_cmd subflow_ip subflow_iface)
    match s2.1 with
    | .raised e =>
        (.raised e,
         .printOut "Configuring MPTCP server mode..." :: (s1.2 ++ s2.2), k + 2)
    | .normal b2 =>
        (.normal (b1 && b2),
         .printOut "Configuring MPTCP server mode..." :: (s1.2 ++ s2.2), k + 2)

/-- Parsed command-line arguments (each optional flag is `none` when absent;
argparse stores the given string otherwise). -/
structure Args where
  mode : String
  iface1 : Option String
  bw1 : Option String
  iface2 : Option String
  bw2 : Option String
  subflow_ip : Option String
  subflow_iface : Option String
deriving DecidableEq, Repr

/-- Python truthiness of an optional string argument: `None` and the empty
string are falsy (`if not all([...])`, `if not args.subflow_ip`). -/
def truthy : Option String → Bool
  | none => false
  | some s => s != ""

/-- The `choices` list of the mode argument (line 152). -/
def modeChoices : List String := ["bandwidth", "mptcp-client", "mptcp-server"]

/-- Argument validation: argparse's `choices` check on the mode, then the
explicit per-mode checks of `main` (lines 169-175).  Returns the usage-error
message, or `none` when validation passes. -/
def validate (a : Args) : Option String :=
  if !(modeChoices.contains a.mode) then
    some ("argument -m/--mode: invalid choice: " ++ a.mode)
  else if a.mode == "bandwidth"
      && !(truthy a.iface1 && truthy a.bw1
           && truthy a.iface2 && truthy a.bw2) then
    some "bandwidth mode requires --iface1, --bw1, --iface2, and --bw2 arguments"
  else if a.mode == "mptcp-server"
      && (!truthy a.subflow_ip || !truthy a.subflow_iface) then
    some "mptcp-server mode requires --subflow-ip and --subflow-iface arguments"
  else
    none

/-- Aggregate success of the selected mode: the handler returned `True`
normally (an uncaught exception is not success). -/
def modeSuccess (w : World) (a : Args) : Bool :=
  if a.mode == "bandwidth" then
    succeeded (handle_bandwidth_mode w 0 (a.iface1.getD "") (a.bw1.getD "")
      (a.iface2.getD "") (a.bw2.getD "")).1
  else if a.mode == "mptcp-client" then
    succeeded (handle_mptcp_client_mode w 0).1
  else if a.mode == "mptcp-server" then
    succeeded (handle_mptcp_server_mode w 0 (a.subflow_ip.getD "")
      (a.subflow_iface.getD "")).1
  else
    false

/-- The interpreter-level end of a handler run: `sys.exit(0 if success else
1)` on a normal return; on an uncaught exception, Python prints a traceback
to stderr and the process exits with status 1. -/
def pyExit (r : PyResult × List Event × Nat) : Nat × List Event :=
  match r.1 with
  | .normal b => (if b then 0 else 1, r.2.1)
  | .raised e =>
      (1, r.2.1 ++ [.printErr ("Traceback (most recent call last): OSError: "
                               ++ e)])

/-- Embedding of `main` (lines 127-186): validate (exit 2 on a usage
error), dispatch on the mode, and end via `pyExit`.  Returns the process
exit code and the event trace. -/
def main (w : World) (a : Args) : Nat × List Event :=
  match validate a with
  | some msg => (2, [.printErr msg])
  | none =>
    if a.mode == "bandwidth" then
      pyExit (handle_bandwidth_mode w 0 (a.iface1.getD "") (a.bw1.getD "")
        (a.iface2.getD "") (a.bw2.getD ""))
    else if a.mode == "mptcp-client" then
      pyExit (handle_mptcp_client_mode w 0)
    else if a.mode == "mptcp-server" then
      pyExit (handle_mptcp_server_mode w 0 (a.subflow_ip.getD "")
        (a.subflow_iface.getD ""))
    else
      (1, [])

/-- A world where every invocation runs and prints nothing on stderr. -/
def okWorld : World := fun _ => .ok "" "" 0

/-- A world where every invocation raises `subprocess.SubprocessError`. -/
def failWorld : World := fun _ => .subprocErr "err"

/-- A world where every invocation raises `FileNotFoundError` (the tool is
not installed): an uncaught `OSError`. -/
def osWorld : World := fun _ => .osErr "No such file or directory"

/-- Fully populated bandwidth-mode arguments. -/
def cexArgs : Args :=
  ⟨"bandwidth", some "eth0", some "100", some "eth1", some "50", none, none⟩

/-- mptcp-client-mode arguments (no extra fields needed). -/
def clientArgs : Args := ⟨"mptcp-client", none, none, none, none, none, none⟩

/-- A world with distinctive stdout text and return codes, stderr empty. -/
def wStdoutA : World := fun _ => .ok "stdout A" "" 0

/-- A world with different stdout text and return codes, stderr empty. -/
def wStdoutB : World := fun _ => .ok "entirely different stdout" "" 7

/-! ### Helper lemmas -/

theorem step_raised (w : World) (k : Nat) (cmd : List String) (e : String)
    (h : w k = .osErr e) :
    step w k cmd = (.raised e, [.exec cmd (w k)]) := by
  simp [step, h]

theorem step_not_raised (w : World) (k : Nat) (cmd : List String)
    (h : propagates (w k) = false) :
    (step w k cmd).1 = .normal (!invFailed (w k)) := by
  cases hk : w k with
  | ok so se c => by_cases hse : se = "" <;> simp [step, invFailed, hk, hse]
  | subprocErr e => simp [step, invFailed, hk]
  | osErr e => rw [hk] at h; simp [propagates] at h

theorem step_fst (w : World) (k : Nat) (cmd : List String) :
    succeeded (step w k cmd).1 = !invFailed (w k) := by
  cases hk : w k with
  | ok so se c =>
    by_cases hse : se = "" <;> simp [step, invFailed, succeeded, hk, hse]
  | subprocErr e => simp [step, invFailed, succeeded, hk]
  | osErr e => simp [step, invFailed, succeeded, hk]

theorem step_cmds (w : World) (k : Nat) (cmd : List String) :
    execCmds (step w k cmd).2 = [cmd] := by
  cases hk : w k with
  | ok so se c => by_cases hse : se = "" <;> simp [step, execCmds, hk, hse]
  | subprocErr e => simp [step, execCmds, hk]
  | osErr e => simp [step, execCmds, hk]

theorem add_step_raised (w : World) (k : Nat) (iface bw e : String)
    (h : w k = .osErr e) :
    add_step w k iface bw = (.raised e, [.exec (add_cmd iface bw) (w k)]) := by
  simp [add_step, h]

theorem add_step_fst (w : World) (k : Nat) (iface bw : String) :
    succeeded (add_step w k iface bw).1 = !invFailed (w k) := by
  cases hk : w k with
  | ok so se c =>
    by_cases hse : se = "" <;> simp [add_step, invFailed, succeeded, hk, hse]
  | subprocErr e => simp [add_step, invFailed, succeeded, hk]
  | osErr e => simp [add_step, invFailed, succeeded, hk]

theorem add_step_cmds (w : World) (k : Nat) (iface bw : String) :
    execCmds (add_step w k iface bw).2 = [add_cmd iface bw] := by
  cases hk : w k with
  | ok so se c => by_cases hse : se = "" <;> simp [add_step, execCmds, hk, hse]
  | subprocErr e => simp [add_step, execCmds, hk]
  | osErr e => simp [add_step, execCmds, hk]

theorem execCmds_append (l1 l2 : List Event) :
    execCmds (l1 ++ l2) = execCmds l1 ++ execCmds l2 := by
  simp [execCmds]

theorem execCmds_cons_exec (c : List String) (o : Outcome) (l : List Event) :
    execCmds (.exec c o :: l) = c :: execCmds l := by
  simp [execCmds]

theorem execCmds_cons_printOut (s : String) (l : List Event) :
    execCmds (.printOut s :: l) = execCmds l := by
  simp [execCmds]

theorem errLines_cons_exec (c : List String) (o : Outcome) (l : List Event) :
    errLines (.exec c o :: l) = errLines l := by
  simp [errLines]

theorem configure_interface_fst (w : World) (k : Nat) (iface bw : String) :
    succeeded (configure_interface w k iface bw).1
      = (!invFailed (w k)
         || (!propagates (w k) && !invFailed (w (k + 1)))) := by
  cases hk : w k with
  | ok so se c =>
    by_cases hse : se = ""
    · simp [configure_interface, invFailed, propagates, succeeded, hk, hse]
    · have hc : (configure_interface w k iface bw).1
          = (add_step w (k + 1) iface bw).1 := by
        simp [configure_interface, hk, hse]
      rw [hc, add_step_fst]
      simp [invFailed, propagates, hk, hse]
  | subprocErr e =>
    have hc : (configure_interface w k iface bw).1
        = (add_step w (k + 1) iface bw).1 := by
      simp [configure_interface, hk]
    rw [hc, add_step_fst]
    simp [invFailed, propagates, hk]
  | osErr e =>
    simp [configure_interface, invFailed, propagates, succeeded, hk]

theorem configure_interface_idx (w : World) (k : Nat) (iface bw : String) :
    (configure_interface w k iface bw).2.2
      = (if propagates (w k) then k + 1
         else if invFailed (w k) then k + 2 else k + 1) := by
  cases hk : w k with
  | ok so se c =>
    by_cases hse : se = "" <;>
      simp [configure_interface, invFailed, propagates, hk, hse]
  | subprocErr e => simp [configure_interface, invFailed, propagates, hk]
  | osErr e => simp [configure_interface, invFailed, propagates, hk]

theorem configure_interface_cmds (w : World) (k : Nat) (iface bw : String) :
    execCmds (configure_interface w k iface bw).2.1
      = (if propagates (w k) then [change_cmd iface bw]
         else if invFailed (w k) then [change_cmd iface bw, add_cmd iface bw]
         else [change_cmd iface bw]) := by
  cases hk : w k with
  | ok so se c =>
    by_cases hse : se = ""
    · simp [configure_interface, invFailed, propagates, hk, hse, execCmds]
    · simp [configure_interface, invFailed, propagates, hk, hse,
            execCmds_cons_exec, add_step_cmds]
  | subprocErr e =>
    simp [configure_interface, invFailed, propagates, hk,
          execCmds_cons_exec, add_step_cmds]
  | osErr e =>
    simp [configure_interface, invFailed, propagates, hk, execCmds]

theorem configure_interface_head (w : World) (k : Nat) (iface bw : String) :
    (execCmds (configure_interface w k iface bw).2.1).head?
      = some (change_cmd iface bw) := by
  rw [configure_interface_cmds]
  by_cases hp : propagates (w k) = true
  · simp [hp]
  · simp only [Bool.not_eq_true] at hp
    cases hf : invFailed (w k) <;> simp [hp, hf]

theorem bandwidth_fst (w : World) (k : Nat) (i1 b1 i2 b2 : String) :
    succeeded (handle_bandwidth_mode w k i1 b1 i2 b2).1
      = (succeeded (configure_interface w k i1 b1).1
         && succeeded (configure_interface w
              (configure_interface w k i1 b1).2.2 i2 b2).1) := by
  unfold handle_bandwidth_mode
  cases h1 : (configure_interface w k i1 b1).1 with
  | raised e => simp [h1, succeeded]
  | normal b =>
    cases h2 : (configure_interface w
        (configure_interface w k i1 b1).2.2 i2 b2).1 with
    | raised e => simp [h1, h2, succeeded]
    | normal b2 => simp [h1, h2, succeeded]

theorem bandwidth_events_normal (w : World) (k : Nat) (i1 b1 i2 b2 : String)
    (b : Bool) (h : (configure_interface w k i1 b1).1 = .normal b) :
    (handle_bandwidth_mode w k i1 b1 i2 b2).2.1
      = (configure_interface w k i1 b1).2.1
        ++ (configure_interface w
              (configure_interface w k i1 b1).2.2 i2 b2).2.1 := by
  unfold handle_bandwidth_mode
  cases h2 : (configure_interface w
      (configure_interface w k i1 b1).2.2 i2 b2).1 with
  | raised e => simp [h, h2]
  | normal b2 => simp [h, h2]

theorem bandwidth_events_raised (w : World) (k : Nat) (i1 b1 i2 b2 e : String)
    (h : (configure_interface w k i1 b1).1 = .raised e) :
    (handle_bandwidth_mode w k i1 b1 i2 b2).1 = .raised e ∧
    (handle_bandwidth_mode w k i1 b1 i2 b2).2.1
      = (configure_interface w k i1 b1).2.1 := by
  unfold handle_bandwidth_mode
  simp [h]

theorem execCmds_head_append (l1 l2 : List Event) (c : List String)
    (h : (execCmds l1).head? = some c) :
    (execCmds (l1 ++ l2)).head? = some c := by
  rw [execCmds_append]
  cases hc : execCmds l1 with
  | nil => rw [hc] at h; simp at h
  | cons x xs =>
    rw [hc] at h
    simp at h
    simp [h]

theorem bandwidth_head (w : World) (k : Nat) (i1 b1 i2 b2 : String) :
    (execCmds (handle_bandwidth_mode w k i1 b1 i2 b2).2.1).head?
      = some (change_cmd i1 b1) := by
  cases h1 : (configure_interface w k i1 b1).1 with
  | raised e =>
    rw [(bandwidth_events_raised w k i1 b1 i2 b2 e h1).2]
    exact configure_interface_head w k i1 b1
  | normal b =>
    rw [bandwidth_events_normal w k i1 b1 i2 b2 b h1]
    exact execCmds_head_append _ _ _ (configure_interface_head w k i1 b1)

theorem client_fst (w : World) (k : Nat) :
    succeeded (handle_mptcp_client_mode w k).1
      = (!invFailed (w k) && !invFailed (w (k + 1))) := by
  by_cases hp : propagates (w k) = true
  · obtain ⟨e, he⟩ : ∃ e, w k = .osErr e := by
      cases hk : w k <;> simp_all [propagates]
    have h1 : invFailed (w k) = true := by simp [invFailed, he]
    simp [handle_mptcp_client_mode, step_raised w k client_cmd1 e he,
          succeeded, h1]
  · simp only [Bool.not_eq_true] at hp
    have h1 := step_not_raised w k client_cmd1 hp
    by_cases hp2 : propagates (w (k + 1)) = true
    · obtain ⟨e, he⟩ : ∃ e, w (k + 1) = .osErr e := by
        cases hk : w (k + 1) <;> simp_all [propagates]
      have h2 : invFailed (w (k + 1)) = true := by simp [invFailed, he]
      simp [handle_mptcp_client_mode, h1,
            step_raised w (k + 1) client_cmd2 e he, succeeded, h2]
    · simp only [Bool.not_eq_true] at hp2
      have h2 := step_not_raised w (k + 1) client_cmd2 hp2
      simp [handle_mptcp_client_mode, h1, h2, succeeded]

theorem server_fst (w : World) (k : Nat) (ip dev : String) :
    succeeded (handle_mptcp_server_mode w k ip dev).1
      = (!invFailed (w k) && !invFailed (w (k + 1))) := by
  by_cases hp : propagates (w k) = true
  · obtain ⟨e, he⟩ : ∃ e, w k = .osErr e := by
      cases hk : w k <;> simp_all [propagates]
    have h1 : invFailed (w k) = true := by simp [invFailed, he]
    simp [handle_mptcp_server_mode, step_raised w k subflow_cmd e he,
          succeeded, h1]
  · simp only [Bool.not_eq_true] at hp
    have h1 := step_not_raised w k subflow_cmd hp
    by_cases hp2 : propagates (w (k + 1)) = true
    · obtain ⟨e, he⟩ : ∃ e, w (k + 1) = .osErr e := by
        cases hk : w (k + 1) <;> simp_all [propagates]
      have h2 : invFailed (w (k + 1)) = true := by simp [invFailed, he]
      simp [handle_mptcp_server_mode, h1,
            step_raised w (k + 1) (endpoint_cmd ip dev) e he, succeeded, h2]
    · simp only [Bool.not_eq_true] at hp2
      have h2 := step_not_raised w (k + 1) (endpoint_cmd ip dev) hp2
      simp [handle_mptcp_server_mode, h1, h2, succeeded]

theorem client_cmds_not_raised (w : World) (k : Nat)
    (hp : propagates (w k) = false) :
    execCmds (handle_mptcp_client_mode w k).2.1 = [client_cmd1, client_cmd2] := by
  have h1 := step_not_raised w k client_cmd1 hp
  by_cases hp2 : propagates (w (k + 1)) = true
  · obtain ⟨e, he⟩ : ∃ e, w (k + 1) = .osErr e := by
      cases hk : w (k + 1) <;> simp_all [propagates]
    simp only [handle_mptcp_client_mode, h1,
               step_raised w (k + 1) client_cmd2 e he]
    rw [execCmds_cons_printOut, execCmds_append, step_cmds]
    simp [execCmds]
  · simp only [Bool.not_eq_true] at hp2
    have h2 := step_not_raised w (k + 1) client_cmd2 hp2
    simp only [handle_mptcp_client_mode, h1, h2]
    rw [execCmds_cons_printOut, execCmds_append, step_cmds, step_cmds]
    rfl

theorem client_cmds_raised (w : World) (k : Nat) (e : String)
    (he : w k = .osErr e) :
    (handle_mptcp_client_mode w k).1 = .raised e ∧
    execCmds (handle_mptcp_client_mode w k).2.1 = [client_cmd1] := by
  constructor
  · simp [handle_mptcp_client_mode, step_raised w k client_cmd1 e he]
  · simp only [handle_mptcp_client_mode, step_raised w k client_cmd1 e he]
    rw [execCmds_cons_printOut]
    simp [execCmds]

theorem server_cmds_not_raised (w : World) (k : Nat) (ip dev : String)
    (hp : propagates (w k) = false) :
    execCmds (handle_mptcp_server_mode w k ip dev).2.1
      = [subflow_cmd, endpoint_cmd ip dev] := by
  have h1 := step_not_raised w k subflow_cmd hp
  by_cases hp2 : propagates (w (k + 1)) = true
  · obtain ⟨e, he⟩ : ∃ e, w (k + 1) = .osErr e := by
      cases hk : w (k + 1) <;> simp_all [propagates]
    simp only [handle_mptcp_server_mode, h1,
               step_raised w (k + 1) (endpoint_cmd ip dev) e he]
    rw [execCmds_cons_printOut, execCmds_append, step_cmds]
    simp [execCmds]
  · simp only [Bool.not_eq_true] at hp2
    have h2 := step_not_raised w (k + 1) (endpoint_cmd ip dev) hp2
    simp only [handle_mptcp_server_mode, h1, h2]
    rw [execCmds_cons_printOut, execCmds_append, step_cmds, step_cmds]
    rfl

theorem server_cmds_raised (w : World) (k : Nat) (ip dev e : String)
    (he : w k = .osErr e) :
    (handle_mptcp_server_mode w k ip dev).1 = .raised e ∧
    execCmds (handle_mptcp_server_mode w k ip dev).2.1 = [subflow_cmd] := by
  constructor
  · simp [handle_mptcp_server_mode, step_raised w k subflow_cmd e he]
  · simp only [handle_mptcp_server_mode, step_raised w k subflow_cmd e he]
    rw [execCmds_cons_printOut]
    simp [execCmds]

theorem pyExit_fst (r : PyResult × List Event × Nat) :
    (pyExit r).1 = (if succeeded r.1 then 0 else 1) := by
  cases h : r.1 with
  | normal b => simp [pyExit, succeeded, h]
  | raised e => simp [pyExit, succeeded, h]

theorem pyExit_cmds (r : PyResult × List Event × Nat) :
    execCmds (pyExit r).2 = execCmds r.2.1 := by
  cases h : r.1 with
  | normal b => simp [pyExit, h]
  | raised e => simp [pyExit, h, execCmds_append, execCmds]

theorem invFailed_congr {o o' : Outcome} (h : errView o = errView o') :
    invFailed o = invFailed o' := by
  cases o <;> cases o' <;> simp_all [errView, invFailed]

theorem propagates_congr {o o' : Outcome} (h : errView o = errView o') :
    propagates o = propagates o' := by
  cases o <;> cases o' <;> simp_all [errView, propagates]

theorem handle_bandwidth_fst_congr (w w' : World) (k : Nat)
    (i1 b1 i2 b2 : String)
    (hf : ∀ j, invFailed (w j) = invFailed (w' j))
    (hp : ∀ j, propagates (w j) = propagates (w' j)) :
    succeeded (handle_bandwidth_mode w k i1 b1 i2 b2).1
      = succeeded (handle_bandwidth_mode w' k i1 b1 i2 b2).1 := by
  have e1 : (configure_interface w k i1 b1).2.2
      = (configure_interface w' k i1 b1).2.2 := by
    rw [configure_interface_idx, configure_interface_idx, hf k, hp k]
  rw [bandwidth_fst, bandwidth_fst, configure_interface_fst,
      configure_interface_fst, configure_interface_fst,
      configure_interface_fst, e1, hf, hp, hf, hf, hp, hf]

theorem modeSuccess_congr (w w' : World) (a : Args)
    (hf : ∀ j, invFailed (w j) = invFailed (w' j))
    (hp : ∀ j, propagates (w j) = propagates (w' j)) :
    modeSuccess w a = modeSuccess w' a := by
  unfold modeSuccess
  by_cases h1 : a.mode = "bandwidth"
  · simp only [h1]
    simp [handle_bandwidth_fst_congr w w' 0 _ _ _ _ hf hp]
  · by_cases h2 : a.mode = "mptcp-client"
    · simp [h1, h2, client_fst, hf]
    · by_cases h3 : a.mode = "mptcp-server"
      · simp [h1, h2, h3, server_fst, hf]
      · simp [h1, h2, h3]

theorem main_fst (w : World) (a : Args) :
    (main w a).1 = (match validate a with
      | some _ => 2
      | none => if modeSuccess w a then 0 else 1) := by
  cases hv : validate a with
  | some msg => simp [main, hv]
  | none =>
    simp only [main, hv, modeSuccess]
    by_cases h1 : a.mode = "bandwidth"
    · simp [h1, pyExit_fst]
    · by_cases h2 : a.mode = "mptcp-client"
      · simp [h1, h2, pyExit_fst]
      · by_cases h3 : a.mode = "mptcp-server"
        · simp [h1, h2, h3, pyExit_fst]
        · simp [h1, h2, h3]

/-! ### Claim theorems -/

/-- C1 counterexample: when the change command cannot be invoked because
the tool is missing, `subprocess.run` raises `FileNotFoundError` (an
`OSError`, not a `SubprocessError`), which `configure_interface` does not
catch: the exception propagates and the fallback `tc qdisc add` is never
run, contradicting the claim that a change that "cannot be invoked" leads
to exactly one fallback add. -/
theorem no_fallback_on_uncaught_oserror :
    osWorld 0 = Outcome.osErr "No such file or directory" ∧
    (configure_interface osWorld 0 "eth0" "100").1
      = PyResult.raised "No such file or directory" ∧
    execCmds (configure_interface osWorld 0 "eth0" "100").2.1
      = [change_cmd "eth0" "100"] ∧
    add_cmd "eth0" "100"
      ∉ execCmds (configure_interface osWorld 0 "eth0" "100").2.1 :=
  ⟨rfl, rfl, rfl, by decide⟩

/-- C1 amended: `configure_interface` first runs the change command; if it
launched and reported no error output, that is the only command run and the
result is success; if it reported error output or raised the caught
`SubprocessError`, exactly one fallback add with the same parameters runs
and the result is the add step's (success iff the add launched and produced
no error output); but if the change raised an uncaught `OSError` (tool not
found, permission denied), no fallback runs and the exception propagates
out of `configure_interface`. -/
theorem change_then_fallback_policy (w : World) (k : Nat) (iface bw : String) :
    (invFailed (w k) = false ∧
       (configure_interface w k iface bw).1 = PyResult.normal true ∧
       execCmds (configure_interface w k iface bw).2.1 = [change_cmd iface bw])
  ∨ (invFailed (w k) = true ∧ propagates (w k) = false ∧
       execCmds (configure_interface w k iface bw).2.1
         = [change_cmd iface bw, add_cmd iface bw] ∧
       (configure_interface w k iface bw).1
         = (add_step w (k + 1) iface bw).1 ∧
       succeeded (configure_interface w k iface bw).1
         = !invFailed (w (k + 1)))
  ∨ (propagates (w k) = true ∧
       execCmds (configure_interface w k iface bw).2.1
         = [change_cmd iface bw] ∧
       (∃ e, (configure_interface w k iface bw).1 = PyResult.raised e)) := by
  cases hk : w k with
  | ok so se c =>
    by_cases hse : se = ""
    · left
      refine ⟨by simp [invFailed, hk, hse], ?_, ?_⟩
      · simp [configure_interface, hk, hse]
      · rw [configure_interface_cmds]
        simp [propagates, invFailed, hk, hse]
    · right; left
      refine ⟨by simp [invFailed, hk, hse], by simp [propagates, hk],
        ?_, ?_, ?_⟩
      · rw [configure_interface_cmds]
        simp [propagates, invFailed, hk, hse]
      · simp [configure_interface, hk, hse]
      · rw [configure_interface_fst]
        simp [invFailed, propagates, hk, hse]
  | subprocErr e =>
    right; left
    refine ⟨by simp [invFailed, hk], by simp [propagates, hk], ?_, ?_, ?_⟩
    · rw [configure_interface_cmds]
      simp [propagates, invFailed, hk]
    · simp [configure_interface, hk]
    · rw [configure_interface_fst]
      simp [invFailed, propagates, hk]
  | osErr e =>
    right; right
    refine ⟨by simp [propagates, hk], ?_, ⟨e, ?_⟩⟩
    · rw [configure_interface_cmds]
      simp [propagates, hk]
    · simp [configure_interface, hk]

/-- C2 counterexample: for the claim's own named causes of a launch failure
(tool not found, permission denied) `subprocess.run` raises an `OSError`,
which no handler catches: in mptcp-client mode the error escapes the
dispatcher (the handler's result is a propagating exception), it is not
reported per-command (the program itself prints no error line), and it
aborts the second limit command; the only mitigation is the interpreter's
traceback and exit code 1. -/
theorem oserror_escapes_dispatcher :
    osWorld 0 = Outcome.osErr "No such file or directory" ∧
    (handle_mptcp_client_mode osWorld 0).1
      = PyResult.raised "No such file or directory" ∧
    errLines (handle_mptcp_client_mode osWorld 0).2.1 = [] ∧
    execCmds (handle_mptcp_client_mode osWorld 0).2.1 = [client_cmd1] ∧
    (main osWorld clientArgs).1 = 1 :=
  ⟨rfl, rfl, rfl, rfl, rfl⟩

/-- C2 amended: a failure raised as `subprocess.SubprocessError` is caught
locally, counted as failure in the aggregate, and does not abort the
remaining commands of the mode; it is reported per-command on the terminal
steps (the add fallback and the mptcp loops) but swallowed silently on the
bandwidth change step, where it merely triggers the add fallback.  The
`OSError` exceptions that the named real launch-failure causes (not found,
permission denied) raise are NOT caught: they escape the handler, abort
every remaining command of the mode without a per-command report, and the
process exits 1 via the interpreter's traceback. -/
theorem launch_failure_handling_policy (w : World) (k : Nat) (e : String)
    (cmd : List String) (iface bw ip dev : String) :
    (w k = Outcome.subprocErr e →
       (step w k cmd).1 = PyResult.normal false ∧
       errLines (step w k cmd).2 ≠ [] ∧
       (add_step w k iface bw).1 = PyResult.normal false ∧
       errLines (add_step w k iface bw).2 ≠ [] ∧
       succeeded (handle_mptcp_client_mode w k).1 = false ∧
       execCmds (handle_mptcp_client_mode w k).2.1
         = [client_cmd1, client_cmd2] ∧
       succeeded (handle_mptcp_server_mode w k ip dev).1 = false ∧
       execCmds (handle_mptcp_server_mode w k ip dev).2.1
         = [subflow_cmd, endpoint_cmd ip dev] ∧
       errLines (configure_interface w k iface bw).2.1
         = errLines (add_step w (k + 1) iface bw).2 ∧
       execCmds (configure_interface w k iface bw).2.1
         = [change_cmd iface bw, add_cmd iface bw]) ∧
    (w k = Outcome.osErr e →
       (step w k cmd).1 = PyResult.raised e ∧
       errLines (step w k cmd).2 = [] ∧
       (add_step w k iface bw).1 = PyResult.raised e ∧
       (configure_interface w k iface bw).1 = PyResult.raised e ∧
       execCmds (configure_interface w k iface bw).2.1
         = [change_cmd iface bw] ∧
       (handle_mptcp_client_mode w k).1 = PyResult.raised e ∧
       execCmds (handle_mptcp_client_mode w k).2.1 = [client_cmd1] ∧
       (handle_mptcp_server_mode w k ip dev).1 = PyResult.raised e ∧
       execCmds (handle_mptcp_server_mode w k ip dev).2.1 = [subflow_cmd]) := by
  constructor
  · intro h
    have hp : propagates (w k) = false := by simp [propagates, h]
    refine ⟨by simp [step, h], by simp [step, h, errLines],
      by simp [add_step, h], by simp [add_step, h, errLines],
      ?_, client_cmds_not_raised w k hp, ?_,
      server_cmds_not_raised w k ip dev hp, ?_, ?_⟩
    · rw [client_fst]
      simp [invFailed, h]
    · rw [server_fst]
      simp [invFailed, h]
    · simp [configure_interface, h, errLines_cons_exec]
    · rw [configure_interface_cmds]
      simp [propagates, invFailed, h]
  · intro h
    refine ⟨by simp [step, h], by simp [step, h, errLines],
      by simp [add_step, h], by simp [configure_interface, h], ?_,
      (client_cmds_raised w k e h).1, (client_cmds_raised w k e h).2,
      (server_cmds_raised w k ip dev e h).1,
      (server_cmds_raised w k ip dev e h).2⟩
    rw [configure_interface_cmds]
    simp [propagates, h]

/-- C2 witness: a caught `SubprocessError` is counted as failure; an
uncaught `OSError` aborts after the first command. -/
theorem launch_failure_handling_policy_witness :
    failWorld 0 = Outcome.subprocErr "err" ∧
    succeeded (handle_mptcp_client_mode failWorld 0).1 = false ∧
    osWorld 0 = Outcome.osErr "No such file or directory" ∧
    execCmds (handle_mptcp_client_mode osWorld 0).2.1 = [client_cmd1] :=
  ⟨rfl,
   ((launch_failure_handling_policy failWorld 0 "err" client_cmd1 "eth0"
       "100" "192.168.1.100" "eth0").1 rfl).2.2.2.2.1,
   rfl,
   ((launch_failure_handling_policy osWorld 0 "No such file or directory"
       client_cmd1 "eth0" "100" "192.168.1.100" "eth0").2
     rfl).2.2.2.2.2.2.1⟩

/-- C3: an invocation is classified as failed iff its captured stderr is
non-empty or it failed to launch (either exception kind); the
classification ignores the return code and the stdout, and every success
decision of every handler is a function of that classification alone (with
an uncaught `OSError` never yielding success). -/
theorem failure_iff_stderr_or_launch (w : World) (k : Nat)
    (cmd : List String) (iface bw ip dev : String) :
    (∀ so se c, invFailed (Outcome.ok so se c) = (se != "")) ∧
    (∀ e, invFailed (Outcome.subprocErr e) = true) ∧
    (∀ e, invFailed (Outcome.osErr e) = true) ∧
    (∀ so so' se c c', invFailed (Outcome.ok so se c)
        = invFailed (Outcome.ok so' se c')) ∧
    succeeded (step w k cmd).1 = !invFailed (w k) ∧
    succeeded (add_step w k iface bw).1 = !invFailed (w k) ∧
    succeeded (configure_interface w k iface bw).1
      = (!invFailed (w k) || (!propagates (w k) && !invFailed (w (k + 1)))) ∧
    succeeded (handle_mptcp_client_mode w k).1
      = (!invFailed (w k) && !invFailed (w (k + 1))) ∧
    succeeded (handle_mptcp_server_mode w k ip dev).1
      = (!invFailed (w k) && !invFailed (w (k + 1))) :=
  ⟨fun _ _ _ => rfl, fun _ => rfl, fun _ => rfl, fun _ _ _ _ _ => rfl,
   step_fst w k cmd, add_step_fst w k iface bw,
   configure_interface_fst w k iface bw, client_fst w k,
   server_fst w k ip dev⟩

/-- C4: if bandwidth mode is selected with any of iface1/bw1/iface2/bw2
absent or empty, or mptcp-server mode with subflow-ip or subflow-iface
absent or empty, the program exits with the usage-error code 2 and no
external command is executed. -/
theorem usage_error_before_any_command (w : World) (a : Args)
    (h : (a.mode = "bandwidth" ∧
            (truthy a.iface1 && truthy a.bw1
              && truthy a.iface2 && truthy a.bw2) = false)
       ∨ (a.mode = "mptcp-server" ∧
            (truthy a.subflow_ip && truthy a.subflow_iface) = false)) :
    (main w a).1 = 2 ∧ execCmds (main w a).2 = [] := by
  rcases h with ⟨hm, hv⟩ | ⟨hm, hv⟩
  · simp [main, validate, hm, hv, modeChoices, execCmds]
  · rw [Bool.and_eq_false_iff] at hv
    rcases hv with hv | hv <;>
      simp [main, validate, hm, hv, modeChoices, execCmds]

/-- C4 witness: bandwidth mode with bw1 missing exits 2 with no command. -/
theorem usage_error_before_any_command_witness :
    ("bandwidth" = "bandwidth" ∧
      (truthy (some "eth0") && truthy (Option.none)
        && truthy (some "eth1") && truthy (some "50")) = false) ∧
    (main okWorld
        ⟨"bandwidth", some "eth0", none, some "eth1", some "50",
         none, none⟩).1 = 2 ∧
    execCmds (main okWorld
        ⟨"bandwidth", some "eth0", none, some "eth1", some "50",
         none, none⟩).2 = [] :=
  ⟨⟨rfl, rfl⟩,
   usage_error_before_any_command okWorld
     ⟨"bandwidth", some "eth0", none, some "eth1", some "50", none, none⟩
     (Or.inl ⟨rfl, rfl⟩)⟩

/-- C5 counterexample: with `tc` absent every invocation raises an uncaught
`FileNotFoundError`; the first interface's change attempt crashes the mode,
so the second interface is never attempted — only the first change command
appears in the trace — contradicting "both interfaces are attempted even if
the first fails entirely". -/
theorem second_interface_not_attempted :
    osWorld 0 = Outcome.osErr "No such file or directory" ∧
    execCmds (handle_bandwidth_mode osWorld 0 "eth0" "100" "eth1" "50").2.1
      = [change_cmd "eth0" "100"] ∧
    change_cmd "eth1" "50"
      ∉ execCmds (handle_bandwidth_mode osWorld 0 "eth0" "100" "eth1" "50").2.1 ∧
    (handle_bandwidth_mode osWorld 0 "eth0" "100" "eth1" "50").1
      = PyResult.raised "No such file or directory" :=
  ⟨rfl, rfl, by decide, rfl⟩

/-- C5 amended: the aggregate is the AND of the two interfaces' outcomes,
and whenever the first interface's configuration returns normally —
including failing both its change and its add by error output or a caught
`SubprocessError` — the second interface is attempted, in argument order,
its change command first; but when the first interface's configuration
raises an uncaught `OSError` the exception propagates and the second
interface is never attempted. -/
theorem bandwidth_attempts_policy (w : World) (k : Nat)
    (i1 b1 i2 b2 : String) :
    succeeded (handle_bandwidth_mode w k i1 b1 i2 b2).1
      = (succeeded (configure_interface w k i1 b1).1
         && succeeded (configure_interface w
              (configure_interface w k i1 b1).2.2 i2 b2).1) ∧
    (execCmds (configure_interface w k i1 b1).2.1).head?
      = some (change_cmd i1 b1) ∧
    (∀ b, (configure_interface w k i1 b1).1 = PyResult.normal b →
       (handle_bandwidth_mode w k i1 b1 i2 b2).2.1
         = (configure_interface w k i1 b1).2.1
           ++ (configure_interface w
                 (configure_interface w k i1 b1).2.2 i2 b2).2.1 ∧
       (execCmds (configure_interface w
           (configure_interface w k i1 b1).2.2 i2 b2).2.1).head?
         = some (change_cmd i2 b2)) ∧
    (∀ e, (configure_interface w k i1 b1).1 = PyResult.raised e →
       (handle_bandwidth_mode w k i1 b1 i2 b2).1 = PyResult.raised e ∧
       (handle_bandwidth_mode w k i1 b1 i2 b2).2.1
         = (configure_interface w k i1 b1).2.1) := by
  refine ⟨bandwidth_fst w k i1 b1 i2 b2,
    configure_interface_head w k i1 b1, ?_, ?_⟩
  · intro b hb
    exact ⟨bandwidth_events_normal w k i1 b1 i2 b2 b hb,
           configure_interface_head w _ i2 b2⟩
  · intro e he
    exact bandwidth_events_raised w k i1 b1 i2 b2 e he

/-- C5 witness: with a silent world the first interface returns normally
and the trace is the concatenation of both interfaces' traces. -/
theorem bandwidth_attempts_policy_witness :
    (configure_interface okWorld 0 "eth0" "100").1 = PyResult.normal true ∧
    (handle_bandwidth_mode okWorld 0 "eth0" "100" "eth1" "50").2.1
      = (configure_interface okWorld 0 "eth0" "100").2.1
        ++ (configure_interface okWorld
             (configure_interface okWorld 0 "eth0" "100").2.2
             "eth1" "50").2.1 :=
  ⟨rfl, ((bandwidth_attempts_policy okWorld 0 "eth0" "100" "eth1" "50").2.2.1
      true rfl).1⟩

/-- C6 counterexample: with `ip` absent the first limit command raises an
uncaught `FileNotFoundError` and the second limit command is never issued,
contradicting "both always run regardless of the first's outcome". -/
theorem second_limit_command_not_issued :
    osWorld 0 = Outcome.osErr "No such file or directory" ∧
    execCmds (handle_mptcp_client_mode osWorld 0).2.1 = [client_cmd1] ∧
    client_cmd2 ∉ execCmds (handle_mptcp_client_mode osWorld 0).2.1 ∧
    (handle_mptcp_client_mode osWorld 0).1
      = PyResult.raised "No such file or directory" :=
  ⟨rfl, rfl, by decide, rfl⟩

/-- C6 amended: mptcp-client mode issues the two limit commands in fixed
order, each evaluated independently for error output, with aggregate the
AND of both; the second command runs whenever the first returns or raises
the caught `SubprocessError`, but an uncaught `OSError` from the first
invocation aborts the mode before the second limit command is issued. -/
theorem mptcp_client_commands_policy (w : World) (k : Nat) :
    client_cmd1 = ["ip", "mptcp", "limits", "set", "subflow", "2"] ∧
    client_cmd2 = ["ip", "mptcp", "limits", "set", "add_addr_accepted", "2"] ∧
    (propagates (w k) = false →
       execCmds (handle_mptcp_client_mode w k).2.1
         = [client_cmd1, client_cmd2]) ∧
    (∀ e, w k = Outcome.osErr e →
       (handle_mptcp_client_mode w k).1 = PyResult.raised e ∧
       execCmds (handle_mptcp_client_mode w k).2.1 = [client_cmd1]) ∧
    succeeded (handle_mptcp_client_mode w k).1
      = (!invFailed (w k) && !invFailed (w (k + 1))) :=
  ⟨rfl, rfl, client_cmds_not_raised w k,
   fun e he => client_cmds_raised w k e he, client_fst w k⟩

/-- C6 witness: with a silent world both limit commands are issued. -/
theorem mptcp_client_commands_policy_witness :
    propagates (okWorld 0) = false ∧
    execCmds (handle_mptcp_client_mode okWorld 0).2.1
      = [client_cmd1, client_cmd2] :=
  ⟨rfl, (mptcp_client_commands_policy okWorld 0).2.2.1 rfl⟩

/-- C7 counterexample: when the subflow-limit invocation raises an uncaught
`OSError` the endpoint-add command is never issued, contradicting "the
endpoint-add command is always issued even if the subflow-limit command
fails". -/
theorem endpoint_add_not_issued :
    osWorld 0 = Outcome.osErr "No such file or directory" ∧
    execCmds (handle_mptcp_server_mode osWorld 0 "192.168.1.100" "eth0").2.1
      = [subflow_cmd] ∧
    endpoint_cmd "192.168.1.100" "eth0"
      ∉ execCmds (handle_mptcp_server_mode osWorld 0
          "192.168.1.100" "eth0").2.1 ∧
    (handle_mptcp_server_mode osWorld 0 "192.168.1.100" "eth0").1
      = PyResult.raised "No such file or directory" :=
  ⟨rfl, rfl, by decide, rfl⟩

/-- C7 amended: mptcp-server mode issues the subflow-limit command then the
endpoint-add command in fixed order, with aggregate the AND of both; the
endpoint-add is issued whenever the limit command returns (with or without
error output) or raises the caught `SubprocessError`, but an uncaught
`OSError` from the limit invocation aborts the mode before the endpoint-add
is issued. -/
theorem mptcp_server_commands_policy (w : World) (k : Nat) (ip dev : String) :
    subflow_cmd = ["ip", "mptcp", "limits", "set", "subflow", "2"] ∧
    endpoint_cmd ip dev
      = ["ip", "mptcp", "endpoint", "add", ip, "dev", dev, "signal"] ∧
    (propagates (w k) = false →
       execCmds (handle_mptcp_server_mode w k ip dev).2.1
         = [subflow_cmd, endpoint_cmd ip dev]) ∧
    (∀ e, w k = Outcome.osErr e →
       (handle_mptcp_server_mode w k ip dev).1 = PyResult.raised e ∧
       execCmds (handle_mptcp_server_mode w k ip dev).2.1 = [subflow_cmd]) ∧
    succeeded (handle_mptcp_server_mode w k ip dev).1
      = (!invFailed (w k) && !invFailed (w (k + 1))) :=
  ⟨rfl, rfl, server_cmds_not_raised w k ip dev,
   fun e he => server_cmds_raised w k ip dev e he, server_fst w k ip dev⟩

/-- C7 witness: with a silent world both server commands are issued. -/
theorem mptcp_server_commands_policy_witness :
    propagates (okWorld 0) = false ∧
    execCmds (handle_mptcp_server_mode okWorld 0 "192.168.1.100" "eth0").2.1
      = [subflow_cmd, endpoint_cmd "192.168.1.100" "eth0"] :=
  ⟨rfl,
   (mptcp_server_commands_policy okWorld 0 "192.168.1.100" "eth0").2.2.1 rfl⟩

/-- C8: after successful validation the exit code is 0 iff the selected
mode's aggregate outcome is success and 1 otherwise (an uncaught crash also
exits 1); a validation failure exits with the argument-parser error code 2. -/
theorem exit_code_policy (w : World) (a : Args) :
    ((∃ msg, validate a = some msg) → (main w a).1 = 2) ∧
    (validate a = none →
      (main w a).1 = (if modeSuccess w a then 0 else 1)) := by
  constructor
  · rintro ⟨msg, hv⟩
    simp [main_fst, hv]
  · intro hv
    simp [main_fst, hv]

/-- C8 witness: with valid mptcp-client arguments and a silent world,
validation passes and the exit code matches the aggregate outcome. -/
theorem exit_code_policy_witness :
    validate clientArgs = none ∧
    (main okWorld clientArgs).1
      = (if modeSuccess okWorld clientArgs then 0 else 1) :=
  ⟨rfl, (exit_code_policy okWorld clientArgs).2 rfl⟩

/-- C9: bandwidth values are never validated as numbers: any non-empty
strings pass bandwidth-mode validation, and the value is interpolated
verbatim into the tc rate argument as `<bw>mbit`, the change command being
the first command whose invocation is attempted. -/
theorem bandwidth_values_unvalidated (w : World) (i1 s1 i2 s2 : String)
    (h1 : i1 ≠ "") (h2 : s1 ≠ "") (h3 : i2 ≠ "") (h4 : s2 ≠ "") :
    validate ⟨"bandwidth", some i1, some s1, some i2, some s2,
      none, none⟩ = none ∧
    change_cmd i1 s1 = ["tc", "qdisc", "change", "dev", i1, "root", "tbf",
      "rate", s1 ++ "mbit", "burst", "256mbit", "latency", "600ms"] ∧
    (execCmds (main w ⟨"bandwidth", some i1, some s1, some i2, some s2,
        none, none⟩).2).head? = some (change_cmd i1 s1) := by
  have hv : validate ⟨"bandwidth", some i1, some s1, some i2, some s2,
      none, none⟩ = none := by
    simp [validate, truthy, modeChoices, h1, h2, h3, h4]
  refine ⟨hv, rfl, ?_⟩
  have hm : (main w ⟨"bandwidth", some i1, some s1, some i2, some s2,
      none, none⟩).2
      = (pyExit (handle_bandwidth_mode w 0 i1 s1 i2 s2)).2 := by
    simp [main, hv]
  rw [hm, pyExit_cmds]
  exact bandwidth_head w 0 i1 s1 i2 s2

/-- C9 witness: the non-numeric strings "abc" and "-5" pass validation and
"abc" reaches the rate argument of the first attempted command verbatim. -/
theorem bandwidth_values_unvalidated_witness :
    ("abc" ≠ "" ∧ "-5" ≠ "") ∧
    validate ⟨"bandwidth", some "eth0", some "abc", some "eth1", some "-5",
      none, none⟩ = none ∧
    (execCmds (main okWorld ⟨"bandwidth", some "eth0", some "abc",
        some "eth1", some "-5", none, none⟩).2).head?
      = some ["tc", "qdisc", "change", "dev", "eth0", "root", "tbf",
          "rate", "abcmbit", "burst", "256mbit", "latency", "600ms"] := by
  have h := bandwidth_values_unvalidated okWorld "eth0" "abc" "eth1" "-5"
    (by decide) (by decide) (by decide) (by decide)
  refine ⟨⟨by decide, by decide⟩, h.1, ?_⟩
  rw [h.2.2]
  rfl

/-- C10: the aggregate outcome and exit code are a function only of each
invocation's captured stderr and launch outcome: two worlds with identical
error views (arbitrary stdout texts and return codes) give every mode the
same aggregate result and the same exit code. -/
theorem aggregate_stdout_independent (w w' : World) (a : Args)
    (h : ∀ k, errView (w k) = errView (w' k)) :
    modeSuccess w a = modeSuccess w' a ∧ (main w a).1 = (main w' a).1 := by
  have hf : ∀ j, invFailed (w j) = invFailed (w' j) :=
    fun j => invFailed_congr (h j)
  have hp : ∀ j, propagates (w j) = propagates (w' j) :=
    fun j => propagates_congr (h j)
  have hm : modeSuccess w a = modeSuccess w' a :=
    modeSuccess_congr w w' a hf hp
  exact ⟨hm, by rw [main_fst, main_fst, hm]⟩

/-- C10 witness: two worlds differing in stdout text and return codes but
with identical stderr views give bandwidth mode the same exit code. -/
theorem aggregate_stdout_independent_witness :
    (∀ k, errView (wStdoutA k) = errView (wStdoutB k)) ∧
    (main wStdoutA cexArgs).1 = (main wStdoutB cexArgs).1 :=
  ⟨fun _ => rfl,
   (aggregate_stdout_independent wStdoutA wStdoutB cexArgs
     (fun _ => rfl)).2⟩

end FrontNetCtrl
